import Mathlib

/-!
Verification of the metric-derivation and segmentation engine of the
ecommerce-analytics repository: the RFM scorer (src/analytics/rfm_analysis.py),
the CLV estimator (src/analytics/clv_analysis.py), the cohort/retention builder
(src/analytics/cohort_analysis.py) and the behavioral segment naming step
(src/analytics/customer_segmentation.py).

Modelling conventions, shared by every definition below:
- a pandas DataFrame is a Lean list of rows; groupby keys are enumerated in
  ascending key order exactly as pandas groupby sorts its groups;
- dates are already parsed: a date is carried as its day number (an Int) and,
  where the cohort engine needs calendar periods, as its calendar month index
  (an Int); `pd.to_datetime` on an already-parsed column is the identity;
- money amounts and all derived ratios are exact rationals (the float
  expressions of the source, e.g. 30.44, 1.5, 0.5, are the rationals 761/25,
  3/2, 1/2; none of the verified properties depends on float rounding);
- `customer_id` is the key of the customers table (unique per the data model),
  so a left merge on it is a lookup of the first matching row;
- fallible pandas operations are embedded with Option/Except: `pd.qcut` on the
  ranks 1..N has duplicate bin edges, and raises, exactly when N < 2, and the
  Python exceptions ValueError / KeyError / UnboundLocalError become the
  constructors of `PyErr`.
-/

/-- Python exception kinds that the analytics engines can surface. -/
inductive PyErr where
  | valueError
  | keyError
  | unboundLocalError
deriving DecidableEq, Repr

/-- One row of the orders table: `order_id`, `customer_id`, `order_date`
(as day number and calendar month index) and `final_amount`. -/
structure OrderRow where
  order_id : Nat
  customer_id : Nat
  order_day : Int
  order_month : Int
  final_amount : Rat
deriving DecidableEq, Repr

/-- One row of the customers table: `customer_id` and `signup_date`
(as day number and calendar month index). -/
structure CustomerRow where
  customer_id : Nat
  signup_day : Int
  signup_month : Int
deriving DecidableEq, Repr

/-- Insert into a list sorted by the boolean relation `le` (helper of
`sortLe`, the model of the ascending sort pandas groupby applies to keys). -/
def insertLe {α : Type} (le : α → α → Bool) (x : α) : List α → List α
  | [] => [x]
  | y :: ys => if le x y then x :: y :: ys else y :: insertLe le x ys

/-- Insertion sort by a boolean relation; models the ascending key order of
pandas groupby results. -/
def sortLe {α : Type} (le : α → α → Bool) : List α → List α
  | [] => []
  | x :: xs => insertLe le x (sortLe le xs)

/-- Maximum of a list of integers (0 when empty; every use below is on a
nonempty list). Models the `max` aggregation of pandas. -/
def listMaxInt : List Int → Int
  | [] => 0
  | [x] => x
  | x :: xs => max x (listMaxInt xs)

/-- Minimum of a list of integers (0 when empty; every use below is on a
nonempty list). Models the `min` aggregation of pandas. -/
def listMinInt : List Int → Int
  | [] => 0
  | [x] => x
  | x :: xs => min x (listMinInt xs)

/-- Arithmetic mean of a list of rationals, sum divided by length (0 when the
list is empty; in Rat, division by zero yields 0). Models `.mean()`. -/
def ratMean (l : List Rat) : Rat := l.sum / (l.length : Rat)

/-- `clip(lower, upper)` of pandas: clamp a rational to the interval. -/
def ratClamp (x lo hi : Rat) : Rat := min (max x lo) hi

/-- Number of distinct values in a list; models `.nunique()`. -/
def nunique (l : List Nat) : Nat := l.dedup.length

/-- All orders of one customer, in table order; models selecting a groupby
group of `orders.groupby(customer_id)`. -/
def ordersOf (orders : List OrderRow) (c : Nat) : List OrderRow :=
  orders.filter (fun o => o.customer_id == c)

/-- The distinct customer ids occurring in the orders table, ascending:
the index of every per-customer groupby aggregation. -/
def customerIdsSorted (orders : List OrderRow) : List Nat :=
  sortLe (fun a b => decide (a ≤ b)) ((orders.map (fun o => o.customer_id)).dedup)

/-!  ## RFM engine (src/analytics/rfm_analysis.py)  -/

/-- Per-customer aggregate of `calculate_rfm_scores`: last order date, order
count (`frequency`), total spend (`monetary`), and `recency` = days between
the reference date and the last order. -/
structure RfmAgg where
  customer_id : Nat
  last_order_day : Int
  frequency : Nat
  monetary : Rat
  recency : Int
deriving DecidableEq, Repr

/-- The groupby aggregation row of `calculate_rfm_scores` for one customer. -/
def rfmAggRow (refDay : Int) (orders : List OrderRow) (c : Nat) : RfmAgg :=
  let os := ordersOf orders c
  { customer_id := c
    last_order_day := listMaxInt (os.map (fun o => o.order_day))
    frequency := os.length
    monetary := (os.map (fun o => o.final_amount)).sum
    recency := refDay - listMaxInt (os.map (fun o => o.order_day)) }

/-- The `customer_rfm` aggregate table (one row per ordering customer, in
ascending customer id order, as pandas groupby produces it). -/
def customer_rfm (refDay : Int) (orders : List OrderRow) : List RfmAgg :=
  (customerIdsSorted orders).map (rfmAggRow refDay orders)

/-- `rank(method='first')` of pandas on the column `xs` for the element at
position `i` with value `v`: one plus the number of positions that come
strictly earlier in the ranking — strictly smaller value (strictly larger when
`asc` is false), or equal value at an earlier position. -/
def rankFirst {α : Type} [LinearOrder α] [Inhabited α]
    (asc : Bool) (xs : List α) (i : Nat) (v : α) : Nat :=
  1 + (List.range xs.length).countP fun j =>
    decide ((if asc then xs.getD j default < v else v < xs.getD j default) ∨
            (xs.getD j default = v ∧ j < i))

/-- The bucket (1..5) that `pd.qcut(ranks, q=5)` assigns to rank `r` out of
the distinct ranks 1..n. The bin edges are the linearly interpolated
quantiles 1 + (k/5)(n-1), so rank r ≥ 2 falls in bucket ⌈5(r-1)/(n-1)⌉ and
rank 1 in bucket 1 (the lowest bin is closed on the left). -/
def qcutBucket (n r : Nat) : Nat :=
  if r ≤ 1 then 1 else (5 * (r - 1) + (n - 2)) / (n - 1)

/-- The label a qcut bucket receives: bucket k gets label k under the label
list [1,2,3,4,5] (`rev = false`) and label 6-k under [5,4,3,2,1]
(`rev = true`). -/
def scoreLabel (rev : Bool) (b : Nat) : Nat :=
  if rev then 6 - b else b

/-- The 1..5 score column that `pd.qcut(xs.rank(method='first', ascending=asc),
q=5, labels=...)` produces, position by position. -/
def scoresOf {α : Type} [LinearOrder α] [Inhabited α]
    (asc rev : Bool) (xs : List α) : List Nat :=
  (List.range xs.length).map fun i =>
    scoreLabel rev (qcutBucket xs.length (rankFirst asc xs i (xs.getD i default)))

/-- One row of the table `calculate_rfm_scores` returns: the customer joined
(left merge) with raw RFM values and 1..5 scores, sentinel-filled when the
customer has no orders. -/
structure RfmRow where
  customer_id : Nat
  recency : Int
  frequency : Nat
  monetary : Rat
  R_score : Nat
  F_score : Nat
  M_score : Nat
  RFM_score : String
  RFM_avg_score : Rat
deriving DecidableEq, Repr

/-- The sentinel row of `fillna` for a customer with no purchase history:
recency 999, frequency 0, monetary 0, all scores 1, RFM_score "111". -/
def rfmSentinelRow (cid : Nat) : RfmRow :=
  { customer_id := cid, recency := 999, frequency := 0, monetary := 0,
    R_score := 1, F_score := 1, M_score := 1, RFM_score := "111",
    RFM_avg_score := 1 }

/-- The scored row for one aggregate row and its three qcut labels. -/
def rfmScoredRowOf (agg : RfmAgg) (r f m : Nat) : RfmRow :=
  { customer_id := agg.customer_id, recency := agg.recency,
    frequency := agg.frequency, monetary := agg.monetary,
    R_score := r, F_score := f, M_score := m,
    RFM_score := toString r ++ toString f ++ toString m,
    RFM_avg_score := ((r : Rat) + (f : Rat) + (m : Rat)) / 3 }

/-- The `customer_rfm` table with its three score columns: recency is scored
via descending first-ranks with labels [5,4,3,2,1], frequency and monetary
via ascending first-ranks with labels [1,2,3,4,5]. Each aggregate row is
zipped with its scores (the score columns have the same length as the
table). -/
def scoredAgg (refDay : Int) (orders : List OrderRow) : List RfmRow :=
  let agg := customer_rfm refDay orders
  (agg.zip ((scoresOf false true (agg.map fun a => a.recency)).zip
    ((scoresOf true false (agg.map fun a => a.frequency)).zip
      (scoresOf true false (agg.map fun a => a.monetary))))).map
    fun t => rfmScoredRowOf t.1 t.2.1 t.2.2.1 t.2.2.2

/-- The left merge of the scored aggregates onto one customers row:
the scored row when the customer has orders, the sentinel row otherwise. -/
def mergedRfmRow (refDay : Int) (orders : List OrderRow) (c : CustomerRow) :
    RfmRow :=
  match (scoredAgg refDay orders).find?
      (fun row => row.customer_id == c.customer_id) with
  | some row => row
  | none => rfmSentinelRow c.customer_id

/-- `RFMAnalyzer.calculate_rfm_scores`: aggregate orders per customer, score
the three axes, then left-merge onto the customers table with sentinel fills.
Returns none exactly when `pd.qcut` raises because fewer than two customers
have orders (duplicate bin edges on the ranks 1..N for N < 2). -/
def calculate_rfm_scores (refDay : Int) (orders : List OrderRow)
    (customers : List CustomerRow) : Option (List RfmRow) :=
  if (customer_rfm refDay orders).length < 2 then none
  else some (customers.map (mergedRfmRow refDay orders))

/-- Inclusive integer range box of one RFM segment rule. -/
structure SegBox where
  rlo : Nat
  rhi : Nat
  flo : Nat
  fhi : Nat
  mlo : Nat
  mhi : Nat
deriving DecidableEq, Repr

/-- `RFMAnalyzer.segment_rules`: the 11 named inclusive range boxes, keyed by
segment name, exactly as the constructor defines them. -/
def segment_rules : List (String × SegBox) :=
  [("Champions", ⟨4, 5, 4, 5, 4, 5⟩),
   ("Loyal Customers", ⟨3, 5, 3, 5, 3, 5⟩),
   ("Potential Loyalists", ⟨3, 5, 1, 3, 1, 3⟩),
   ("New Customers", ⟨4, 5, 1, 1, 1, 1⟩),
   ("Promising", ⟨3, 4, 1, 1, 1, 1⟩),
   ("Need Attention", ⟨2, 3, 2, 3, 2, 3⟩),
   ("About to Sleep", ⟨2, 3, 1, 2, 1, 2⟩),
   ("At Risk", ⟨1, 2, 2, 5, 2, 5⟩),
   ("Cannot Lose Them", ⟨1, 2, 4, 5, 4, 5⟩),
   ("Hibernating", ⟨1, 2, 1, 2, 1, 2⟩),
   ("Lost", ⟨1, 1, 1, 1, 1, 1⟩)]

/-- The priority order `segment_priority` hard-coded inside
`RFMAnalyzer.assign_segments`. -/
def segment_priority : List String :=
  ["Champions", "Loyal Customers", "Potential Loyalists",
   "New Customers", "Promising", "Cannot Lose Them",
   "At Risk", "Need Attention", "About to Sleep",
   "Hibernating", "Lost"]

/-- Whether an (R, F, M) triple lies inside the inclusive range box. -/
def inBox (b : SegBox) (r f m : Nat) : Bool :=
  decide (b.rlo ≤ r ∧ r ≤ b.rhi ∧ b.flo ≤ f ∧ f ≤ b.fhi ∧ b.mlo ≤ m ∧ m ≤ b.mhi)

/-- Walk a priority list, returning the first segment whose rule box (looked
up in `segment_rules`) contains the triple; "Others" when none does. The
lookup default box is irrelevant: every priority entry is a `segment_rules`
key. -/
def assignSegmentGo (r f m : Nat) : List String → String
  | [] => "Others"
  | s :: rest =>
      if inBox ((segment_rules.lookup s).getD ⟨0, 0, 0, 0, 0, 0⟩) r f m then s
      else assignSegmentGo r f m rest

/-- The inner `assign_segment` of `RFMAnalyzer.assign_segments`: first match
over `segment_priority`, falling back to "Others". -/
def assign_segment (r f m : Nat) : String :=
  assignSegmentGo r f m segment_priority

/-- `RFMAnalyzer.assign_segments`: add the segment column to the RFM table. -/
def assign_segments (tbl : List RfmRow) : List (RfmRow × String) :=
  tbl.map fun row => (row, assign_segment row.R_score row.F_score row.M_score)

/-- Modelled from the spec (§4.2): the priority-ordered (name, box) rule list
as the specification states it, used to check the code order against it. -/
def spec_segment_list : List (String × SegBox) :=
  [("Champions", ⟨4, 5, 4, 5, 4, 5⟩),
   ("Loyal Customers", ⟨3, 5, 3, 5, 3, 5⟩),
   ("Potential Loyalists", ⟨3, 5, 1, 3, 1, 3⟩),
   ("New Customers", ⟨4, 5, 1, 1, 1, 1⟩),
   ("Promising", ⟨3, 4, 1, 1, 1, 1⟩),
   ("Cannot Lose Them", ⟨1, 2, 4, 5, 4, 5⟩),
   ("At Risk", ⟨1, 2, 2, 5, 2, 5⟩),
   ("Need Attention", ⟨2, 3, 2, 3, 2, 3⟩),
   ("About to Sleep", ⟨2, 3, 1, 2, 1, 2⟩),
   ("Hibernating", ⟨1, 2, 1, 2, 1, 2⟩),
   ("Lost", ⟨1, 1, 1, 1, 1, 1⟩)]

/-- Modelled from the spec: first-match-wins evaluation of an ordered
(name, box) rule list, with fallback "Others". -/
def specFirstMatch (r f m : Nat) : List (String × SegBox) → String
  | [] => "Others"
  | (s, b) :: rest => if inBox b r f m then s else specFirstMatch r f m rest

/-!  ## Cohort engine (src/analytics/cohort_analysis.py)  -/

/-- One row of the cohort table `create_signup_cohorts` returns. -/
structure CohortRow where
  cohort_group : Int
  period_number : Int
  active_customers : Nat
  total_customers : Nat
  retention_rate : Rat
deriving DecidableEq, Repr

/-- The cohort group of a customer id: the signup month of the (first)
matching customers row; none when the left merge finds no customer, in which
case the period number is NaN and the orders row is dropped from the
aggregation. -/
def cohortGroupOf (customers : List CustomerRow) (cid : Nat) : Option Int :=
  (customers.find? fun c => c.customer_id == cid).map fun c => c.signup_month

/-- The merged `cohort_data` rows that survive the NaN filter: for each orders
row whose customer exists, the triple (customer_id, cohort_group,
period_number), with period_number = order month minus cohort month (monthly
period subtraction `.n`). -/
def cohortJoined (customers : List CustomerRow) (orders : List OrderRow) :
    List (Nat × Int × Int) :=
  orders.filterMap fun o =>
    (cohortGroupOf customers o.customer_id).map fun g =>
      (o.customer_id, g, o.order_month - g)

/-- Lexicographic order on (cohort_group, period_number) keys, the order in
which pandas groupby enumerates them. -/
def pairLeB (a b : Int × Int) : Bool :=
  decide (a.1 < b.1 ∨ (a.1 = b.1 ∧ a.2 ≤ b.2))

/-- The distinct (cohort_group, period_number) groupby keys, ascending. -/
def cohortKeys (customers : List CustomerRow) (orders : List OrderRow) :
    List (Int × Int) :=
  sortLe pairLeB ((cohortJoined customers orders).map (fun t => t.2)).dedup

/-- `active_customers` of one (cohort_group, period_number) bucket: the
distinct ordering customers whose joined row falls in the bucket. -/
def activeIn (customers : List CustomerRow) (orders : List OrderRow)
    (g p : Int) : Nat :=
  nunique ((cohortJoined customers orders).filterMap fun t =>
    if t.2.1 = g ∧ t.2.2 = p then some t.1 else none)

/-- `total_customers` of one cohort: the distinct customers of the cohort in
the customers table, whether or not they ordered. -/
def cohortSize (customers : List CustomerRow) (g : Int) : Nat :=
  nunique (customers.filterMap fun c =>
    if c.signup_month = g then some c.customer_id else none)

/-- The cohort table row for one (cohort_group, period_number) key:
retention_rate = active / total. -/
def cohortRowOf (customers : List CustomerRow) (orders : List OrderRow)
    (g p : Int) : CohortRow :=
  { cohort_group := g, period_number := p,
    active_customers := activeIn customers orders g p,
    total_customers := cohortSize customers g,
    retention_rate :=
      (activeIn customers orders g p : Rat) / (cohortSize customers g : Rat) }

/-- The cohort table of `CohortAnalyzer.create_signup_cohorts` (monthly
period type): one row per (cohort_group, period_number) key occurring among
the joined orders. -/
def create_signup_cohorts_table (customers : List CustomerRow)
    (orders : List OrderRow) : List CohortRow :=
  (cohortKeys customers orders).map fun gp =>
    cohortRowOf customers orders gp.1 gp.2

/-- The pivoted retention matrix of `CohortAnalyzer.create_retention_table`:
`periods` are the distinct period numbers (pivot columns, ascending) and each
row pairs a cohort group with its retention cell per period, 0 filled for
missing (cohort, period) combinations. -/
structure RetentionTable where
  periods : List Int
  rows : List (Int × List Rat)
deriving DecidableEq, Repr

/-- Ascending Int order as a Bool relation, for sorting pivot keys. -/
def intLeB (a b : Int) : Bool := decide (a ≤ b)

/-- The retention cell of one (cohort_group, period_number) pair in the
pivot, with `fill_value=0` for absent combinations. -/
def pivotCell (ct : List CohortRow) (g p : Int) : Rat :=
  match ct.find? (fun r => r.cohort_group == g && r.period_number == p) with
  | some r => r.retention_rate
  | none => 0

/-- `CohortAnalyzer.create_retention_table`: pivot the cohort table into a
cohort × period retention matrix (rows and columns in ascending order, as
`pivot_table` sorts them). -/
def create_retention_table (ct : List CohortRow) : RetentionTable :=
  let ps := sortLe intLeB ((ct.map fun r => r.period_number)).dedup
  { periods := ps
    rows := (sortLe intLeB ((ct.map fun r => r.cohort_group)).dedup).map
      fun g => (g, ps.map (pivotCell ct g)) }

/-- One row of the revenue cohort table of `analyze_revenue_cohorts`. -/
structure RevenueRow where
  cohort_group : Int
  period_number : Int
  total_revenue : Rat
  avg_revenue_per_order : Rat
  active_customers : Nat
  avg_revenue_per_customer : Rat
deriving DecidableEq, Repr

/-- The revenue cohort row for one (cohort_group, period_number) key:
sum and mean of final_amount over the bucket, distinct customers, and
revenue per active customer. -/
def revenueRowOf (customers : List CustomerRow) (orders : List OrderRow)
    (g p : Int) : RevenueRow :=
  let bucket := orders.filterMap fun o =>
    match cohortGroupOf customers o.customer_id with
    | some g0 => if g0 = g ∧ o.order_month - g0 = p then some o else none
    | none => none
  let total := (bucket.map fun o => o.final_amount).sum
  let active := nunique (bucket.map fun o => o.customer_id)
  { cohort_group := g, period_number := p, total_revenue := total,
    avg_revenue_per_order := ratMean (bucket.map fun o => o.final_amount),
    active_customers := active,
    avg_revenue_per_customer := total / (active : Rat) }

/-- The revenue table of `CohortAnalyzer.analyze_revenue_cohorts` (monthly). -/
def analyze_revenue_cohorts_table (customers : List CustomerRow)
    (orders : List OrderRow) : List RevenueRow :=
  (cohortKeys customers orders).map fun gp =>
    revenueRowOf customers orders gp.1 gp.2

/-- The retention-trend block of `get_cohort_insights`: 1-month retention and
the guarded 3-month / 6-month averages. -/
structure RetentionTrends where
  month1 : Rat
  month3 : Option Rat
  month6 : Option Rat
deriving DecidableEq, Repr

/-- One `cohort_performance` entry of `get_cohort_insights`. -/
structure CohortPerformance where
  cohort : Int
  initial_retention : Rat
  avg_retention : Rat
  retention_decline : Rat
deriving DecidableEq, Repr

/-- The structured insight object of `get_cohort_insights`. -/
structure CohortInsights where
  retention_trends : RetentionTrends
  cohort_performance : List CohortPerformance
  business_insights : List String
  recommendations : List String
deriving DecidableEq, Repr

/-- The pivot column of one period number: the retention cell of every cohort
row at that column (rows are aligned with `periods` by construction). -/
def retentionColumn (t : RetentionTable) (p : Int) : List Rat :=
  t.rows.map fun r => r.2.getD (t.periods.indexOf p) 0

/-- The `business_insights` list of `get_cohort_insights`: threshold rules on
the 1-month retention (skipped when it is falsy, i.e. zero) and on the
1-month vs 3-month drop (skipped when either is falsy or month 3 is absent). -/
def cohortBusinessInsights (m1 : Rat) (m3 : Option Rat) : List String :=
  (if m1 ≠ 0 then
    [if (1 : Rat)/2 ≤ m1 then "👍 1개월 유지율이 양호합니다 (50% 이상)"
     else if (3 : Rat)/10 ≤ m1 then "⚠️ 1개월 유지율이 보통입니다 (30-50%)"
     else "🚨 1개월 유지율이 낮습니다 (30% 미만)"]
   else []) ++
  (match m3 with
   | some v =>
       if v ≠ 0 ∧ m1 ≠ 0 then
         [if m1 - v ≤ (2 : Rat)/10 then "👍 유지율 감소폭이 안정적입니다"
          else "⚠️ 유지율이 급격히 감소하고 있습니다"]
       else []
   | none => [])

/-- The `recommendations` list of `get_cohort_insights`: two guarded blocks
plus the unconditional tail block. -/
def cohortRecommendations (m1 : Rat) (m3 : Option Rat) : List String :=
  (if m1 ≠ 0 ∧ m1 < (4 : Rat)/10 then
    ["신규 고객 온보딩 프로세스 개선",
     "첫 구매 후 후속 서비스 강화",
     "고객 만족도 조사 및 피드백 수집"]
   else []) ++
  (match m3 with
   | some v =>
       if v ≠ 0 ∧ v < (2 : Rat)/10 then
         ["중기 고객 유지 프로그램 개발",
          "개인화된 마케팅 캠페인 강화",
          "로열티 프로그램 도입 검토"]
       else []
   | none => []) ++
  ["코호트별 맞춤형 마케팅 전략 수립",
   "이탈 위험 고객 조기 발견 시스템 구축",
   "고객 생애주기별 서비스 개선"]

/-- `CohortAnalyzer.get_cohort_insights` over the stored retention table.
When no table is stored the precondition guard raises ValueError. When the
table has at most one period column, the block computing `month_1_retention`
is skipped, all rows fail the `len(valid_data) > 1` test, and the later read
of `month_1_retention` raises UnboundLocalError. When the table has more than
one column but no column labeled 1, `retention_table[1]` raises KeyError.
Otherwise the insight object is returned: per-cohort performance uses the
positionally second column (`iloc[1]`), the mean of all columns but the
first, and second-minus-last. -/
def get_cohort_insights (rt : Option RetentionTable) :
    Except PyErr CohortInsights :=
  match rt with
  | none => .error .valueError
  | some t =>
    if 1 < t.periods.length then
      if 1 ∈ t.periods then
        let m1 := ratMean (retentionColumn t 1)
        let m3 := if 3 ∈ t.periods then some (ratMean (retentionColumn t 3))
                  else none
        let m6 := if 6 ∈ t.periods then some (ratMean (retentionColumn t 6))
                  else none
        let perf := t.rows.filterMap fun r =>
          if 1 < r.2.length then
            some { cohort := r.1, initial_retention := r.2.getD 1 0,
                   avg_retention := ratMean (r.2.drop 1),
                   retention_decline := r.2.getD 1 0 - (r.2.getLast?.getD 0)
                   : CohortPerformance }
          else none
        .ok { retention_trends := ⟨m1, m3, m6⟩, cohort_performance := perf,
              business_insights := cohortBusinessInsights m1 m3,
              recommendations := cohortRecommendations m1 m3 }
      else .error .keyError
    else .error .unboundLocalError

/-!  ## CLV engine (src/analytics/clv_analysis.py)  -/

/-- One row of the table `calculate_historical_clv` returns. The fields
absent from the fillna dictionary (first purchase, last purchase, lifespan)
stay NaN for customers without orders and are therefore Options. -/
structure ClvRow where
  customer_id : Nat
  total_spent : Rat
  avg_order_value : Rat
  purchase_frequency : Nat
  first_purchase : Option Int
  last_purchase : Option Int
  customer_lifespan_days : Option Int
  purchase_frequency_monthly : Rat
  predicted_lifespan_months : Rat
  historical_clv : Rat
deriving DecidableEq, Repr

/-- The per-customer purchase statistics of `calculate_historical_clv` for an
ordering customer: lifespan = max(last - first, 1) days, monthly frequency =
count / (lifespan / 30.44), predicted lifespan months = lifespan / 30.44 × 1.5
clipped to [1, 60], historical CLV = average order value × monthly frequency ×
predicted lifespan months. -/
def clvStatsRow (orders : List OrderRow) (c : Nat) : ClvRow :=
  let os := ordersOf orders c
  let total := (os.map fun o => o.final_amount).sum
  let cnt := os.length
  let avg := total / (cnt : Rat)
  let firstP := listMinInt (os.map fun o => o.order_day)
  let lastP := listMaxInt (os.map fun o => o.order_day)
  let lifespan : Int := max (lastP - firstP) 1
  let monthly : Rat := (cnt : Rat) / ((lifespan : Rat) / ((761 : Rat)/25))
  let predMonths : Rat :=
    ratClamp ((lifespan : Rat) / ((761 : Rat)/25) * ((3 : Rat)/2)) 1 60
  { customer_id := c, total_spent := total, avg_order_value := avg,
    purchase_frequency := cnt, first_purchase := some firstP,
    last_purchase := some lastP, customer_lifespan_days := some lifespan,
    purchase_frequency_monthly := monthly,
    predicted_lifespan_months := predMonths,
    historical_clv := avg * monthly * predMonths }

/-- The fillna row of `calculate_historical_clv` for a customer without
purchase history: zero spend and frequency, a 12 month default lifespan,
historical CLV 0. -/
def clvZeroRow (cid : Nat) : ClvRow :=
  { customer_id := cid, total_spent := 0, avg_order_value := 0,
    purchase_frequency := 0, first_purchase := none, last_purchase := none,
    customer_lifespan_days := none, purchase_frequency_monthly := 0,
    predicted_lifespan_months := 12, historical_clv := 0 }

/-- The table of `CLVAnalyzer.calculate_historical_clv`: the customer stats
left-merged onto the customers table, fillna for customers without orders. -/
def calculate_historical_clv_table (orders : List OrderRow)
    (customers : List CustomerRow) : List ClvRow :=
  customers.map fun c =>
    if (orders.map fun o => o.customer_id).contains c.customer_id then
      clvStatsRow orders c.customer_id
    else clvZeroRow c.customer_id

/-- One row after `calculate_predictive_clv`: the historical row with
`spending_growth_rate`, `trend_multiplier` and `predictive_clv` columns. -/
structure PredRow where
  base : ClvRow
  spending_growth_rate : Rat
  trend_multiplier : Rat
  predictive_clv : Rat
deriving DecidableEq, Repr

/-- The day of the most recent order (the reference point of the trend
windows); 0 when there are no orders, in which case both windows are empty. -/
def maxOrderDay (orders : List OrderRow) : Int :=
  listMaxInt (orders.map fun o => o.order_day)

/-- Total spend of one customer over the orders whose day satisfies `p`. -/
def spentWhere (orders : List OrderRow) (c : Nat) (p : Int → Bool) : Rat :=
  ((orders.filter fun o => o.customer_id == c && p o.order_day).map
    fun o => o.final_amount).sum

/-- The customer ids of the recent 180-day window: the index of
`recent_purchases`, hence of `trend_data`. Customers outside it get the
fillna defaults growth 0, multiplier 1. -/
def recentWindowIds (orders : List OrderRow) : List Nat :=
  ((orders.filter fun o =>
      decide (maxOrderDay orders - 180 ≤ o.order_day)).map
    fun o => o.customer_id).dedup

/-- `spending_growth_rate` of a customer inside the recent window:
(recent - previous)/previous when previous > 0, else 0. -/
def spendingGrowthRate (orders : List OrderRow) (c : Nat) : Rat :=
  let md := maxOrderDay orders
  let recent := spentWhere orders c (fun d => decide (md - 180 ≤ d))
  let prev := spentWhere orders c
    (fun d => decide (md - 360 ≤ d ∧ d < md - 180))
  if 0 < prev then (recent - prev) / prev else 0

/-- `trend_multiplier`: clamp(1 + 0.5 × growth, 0.5, 2.0). -/
def trendMultiplier (orders : List OrderRow) (c : Nat) : Rat :=
  ratClamp (1 + spendingGrowthRate orders c * ((1 : Rat)/2)) ((1 : Rat)/2) 2

/-- One predictive row: the historical row merged with its trend data, with
the fillna defaults growth 0 and multiplier 1 when the customer is absent
from the recent window; predictive CLV = historical CLV × trend
multiplier. -/
def predRowOf (orders : List OrderRow) (r : ClvRow) : PredRow :=
  if (recentWindowIds orders).contains r.customer_id then
    { base := r, spending_growth_rate := spendingGrowthRate orders r.customer_id,
      trend_multiplier := trendMultiplier orders r.customer_id,
      predictive_clv := r.historical_clv * trendMultiplier orders r.customer_id }
  else
    { base := r, spending_growth_rate := 0, trend_multiplier := 1,
      predictive_clv := r.historical_clv * 1 }

/-- The predictive rows of `calculate_predictive_clv`. -/
def predictiveRows (orders : List OrderRow) (hist : List ClvRow) :
    List PredRow :=
  hist.map (predRowOf orders)

/-- The internal `clv_data` state of a `CLVAnalyzer` instance once it is not
None: after `calculate_historical_clv` the table has no `predictive_clv`
column; after `calculate_predictive_clv` it does. -/
inductive ClvData where
  | historicalOnly (rows : List ClvRow)
  | withPredictive (rows : List PredRow)
deriving DecidableEq, Repr

/-- `CLVAnalyzer.calculate_historical_clv`: always succeeds and stores the
historical table as the engine state. -/
def calculate_historical_clv (orders : List OrderRow)
    (customers : List CustomerRow) : ClvData :=
  .historicalOnly (calculate_historical_clv_table orders customers)

/-- The underlying historical rows of a stored `clv_data` table. -/
def ClvData.histRows : ClvData → List ClvRow
  | .historicalOnly rows => rows
  | .withPredictive rows => rows.map fun r => r.base

/-- `CLVAnalyzer.calculate_predictive_clv`: raises the usage ValueError when
`clv_data` is None (historical CLV has not run), otherwise merges the trend
columns into the stored table. -/
def calculate_predictive_clv (st : Option ClvData) (orders : List OrderRow) :
    Except PyErr ClvData :=
  match st with
  | none => .error .valueError
  | some d => .ok (.withPredictive (predictiveRows orders d.histRows))

/-- One row after `segment_customers_by_clv`. -/
structure ClvSegRow where
  base : PredRow
  clv_percentile : Rat
  clv_segment : String
deriving DecidableEq, Repr

/-- `rank(pct=True)` of pandas (average ranks over ties, divided by the
population size): for value v, (#smaller + (#equal + 1)/2) / n. -/
def pctRank (xs : List Rat) (v : Rat) : Rat :=
  (((xs.countP fun u => decide (u < v)) : Rat) +
    (((xs.countP fun u => decide (u = v)) : Rat) + 1) / 2) / (xs.length : Rat)

/-- The percentile thresholds of `assign_clv_segment`. -/
def assignClvSegment (percentile : Rat) : String :=
  if (8 : Rat)/10 ≤ percentile then "High Value"
  else if (2 : Rat)/10 ≤ percentile then "Medium Value"
  else "Low Value"

/-- `CLVAnalyzer.segment_customers_by_clv`: the guard only checks that
`clv_data` is not None; when only the historical step has run, the guard
passes and the read of the absent `predictive_clv` column raises KeyError.
When the predictive table exists, customers are ranked by percentile of
predictive CLV and labeled High/Medium/Low Value. -/
def segment_customers_by_clv (st : Option ClvData) :
    Except PyErr (List ClvSegRow) :=
  match st with
  | none => .error .valueError
  | some (.historicalOnly _) => .error .keyError
  | some (.withPredictive rows) =>
      let vals := rows.map fun r => r.predictive_clv
      .ok (rows.map fun r =>
        let pct := pctRank vals r.predictive_clv
        { base := r, clv_percentile := pct,
          clv_segment := assignClvSegment pct })

/-!  ## Behavioral segment naming (src/analytics/customer_segmentation.py)  -/

/-- Per-cluster mean feature profile (one row of the `segment_profiles`
groupby aggregation): mean frequency, mean monetary, mean recency. -/
structure ClusterProfile where
  freq_mean : Rat
  monetary_mean : Rat
  recency_mean : Rat
deriving DecidableEq, Repr

/-- The descriptive cluster labels of `_assign_behavioral_segment_names`
(the Korean strings of the source, in order: VIP 고객, 과거 VIP, 충성 고객,
이탈 위험, 고액 고객, 휴면 고액, 신규/일반, 저관여). -/
inductive BehavioralName where
  | vip
  | pastVip
  | loyal
  | atRisk
  | highSpend
  | dormantHighSpend
  | newGeneral
  | lowEngagement
deriving DecidableEq, Repr

/-- One customer as the three features used by behavioral segmentation:
(frequency, monetary, recency). -/
structure FeatRow where
  frequency : Rat
  monetary : Rat
  recency : Rat
deriving DecidableEq, Repr

/-- Mean feature profile of one cluster of customers. -/
def profileOf (cluster : List FeatRow) : ClusterProfile :=
  { freq_mean := ratMean (cluster.map fun r => r.frequency)
    monetary_mean := ratMean (cluster.map fun r => r.monetary)
    recency_mean := ratMean (cluster.map fun r => r.recency) }

/-- The profile table of `segment_profiles`: one mean row per cluster. -/
def profilesOf (clusters : List (List FeatRow)) : List ClusterProfile :=
  clusters.map profileOf

/-- The comparison baseline `_assign_behavioral_segment_names` computes:
`profiles[(feature, mean)].mean()`, i.e. the unweighted mean of the
per-cluster means — not the mean over all customers. -/
def overallOfProfiles (profiles : List ClusterProfile) : ClusterProfile :=
  { freq_mean := ratMean (profiles.map fun p => p.freq_mean)
    monetary_mean := ratMean (profiles.map fun p => p.monetary_mean)
    recency_mean := ratMean (profiles.map fun p => p.recency_mean) }

/-- The decision tree of `_assign_behavioral_segment_names` for one cluster
profile against a baseline profile. -/
def behavioralDecision (ov p : ClusterProfile) : BehavioralName :=
  if ov.freq_mean < p.freq_mean ∧ ov.monetary_mean < p.monetary_mean then
    if p.recency_mean < ov.recency_mean then .vip else .pastVip
  else if ov.freq_mean < p.freq_mean then
    if p.recency_mean < ov.recency_mean then .loyal else .atRisk
  else if ov.monetary_mean < p.monetary_mean then
    if p.recency_mean < ov.recency_mean then .highSpend else .dormantHighSpend
  else
    if p.recency_mean < ov.recency_mean then .newGeneral else .lowEngagement

/-- `CustomerSegmentation._assign_behavioral_segment_names`: label every
cluster by the decision tree, comparing its means against the unweighted
mean of the per-cluster means. -/
def assign_behavioral_segment_names (profiles : List ClusterProfile) :
    List BehavioralName :=
  profiles.map (behavioralDecision (overallOfProfiles profiles))

/-- Modelled from the spec (§4.5): the same decision tree but with the
baseline taken as the overall means of the whole input dataset (all
customers pooled), the reading the claim asserts. -/
def datasetOverall (clusters : List (List FeatRow)) : ClusterProfile :=
  profileOf clusters.flatten

/-- Modelled from the spec: cluster names when the baseline is the dataset
overall mean. -/
def spec_behavioral_segment_names (clusters : List (List FeatRow)) :
    List BehavioralName :=
  (profilesOf clusters).map (behavioralDecision (datasetOverall clusters))

/-!  ## In-place effects on the caller tables (for the purity claim)  -/

/-- The customers DataFrame as the caller sees it: its rows plus whether the
derived `cohort_group` column has been added to it in place. Date columns are
modelled as already parsed, so the in-place `pd.to_datetime` coercions are
identities and only column additions are tracked. -/
structure CustomersDF where
  rows : List CustomerRow
  has_cohort_group : Bool
deriving DecidableEq, Repr

/-- The orders DataFrame as the caller sees it: its rows plus whether the
derived `order_period` column has been added to it in place. -/
structure OrdersDF where
  rows : List OrderRow
  has_order_period : Bool
deriving DecidableEq, Repr

/-- `CohortAnalyzer.create_signup_cohorts` as the caller observes it: the
cohort table, and the input DataFrames after the in-place writes
`customers_df[cohort_group] = ...` and `orders_df[order_period] = ...`. -/
def create_signup_cohorts (customers : CustomersDF) (orders : OrdersDF) :
    List CohortRow × CustomersDF × OrdersDF :=
  (create_signup_cohorts_table customers.rows orders.rows,
   { customers with has_cohort_group := true },
   { orders with has_order_period := true })

/-- `CohortAnalyzer.analyze_revenue_cohorts` as the caller observes it: same
in-place column additions as `create_signup_cohorts`. -/
def analyze_revenue_cohorts (customers : CustomersDF) (orders : OrdersDF) :
    List RevenueRow × CustomersDF × OrdersDF :=
  (analyze_revenue_cohorts_table customers.rows orders.rows,
   { customers with has_cohort_group := true },
   { orders with has_order_period := true })

/-- `RFMAnalyzer.calculate_rfm_scores` as the caller observes it: the only
in-place write is the `order_date` datetime coercion, the identity here. -/
def calculate_rfm_scores_df (refDay : Int) (orders : OrdersDF)
    (customers : CustomersDF) :
    Option (List RfmRow) × OrdersDF × CustomersDF :=
  (calculate_rfm_scores refDay orders.rows customers.rows, orders, customers)

/-- `CLVAnalyzer.calculate_historical_clv` as the caller observes it: the only
in-place writes are datetime coercions of both date columns, identities
here. -/
def calculate_historical_clv_df (orders : OrdersDF) (customers : CustomersDF) :
    ClvData × OrdersDF × CustomersDF :=
  (calculate_historical_clv orders.rows customers.rows, orders, customers)

/-- `CLVAnalyzer.calculate_predictive_clv` as the caller observes it: the only
in-place write is the `order_date` datetime coercion, the identity here. -/
def calculate_predictive_clv_df (st : Option ClvData) (orders : OrdersDF) :
    Except PyErr ClvData × OrdersDF :=
  (calculate_predictive_clv st orders.rows, orders)

/-!  ## Concrete datasets used by witnesses and counterexamples  -/

/-- A three-customer dataset: customers 1 and 2 order once each, customer 3
never orders (reference date: day 100). -/
def exOrders : List OrderRow := [⟨1, 1, 90, 2, 10⟩, ⟨2, 2, 80, 2, 20⟩]

/-- The customers table of the three-customer dataset. -/
def exCustomers : List CustomerRow := [⟨1, 60, 1⟩, ⟨2, 62, 2⟩, ⟨3, 65, 2⟩]

/-- The RFM table of the three-customer dataset at reference day 100. -/
def exRfmTable : List RfmRow := exCustomers.map (mergedRfmRow 100 exOrders)

/-- Five customers with one order each, recencies 10 < 20 < 30 < 40 < 50
days at reference day 100 (order days 90, 80, 70, 60, 50). -/
def recencyLadderOrders : List OrderRow :=
  [⟨1, 1, 90, 0, 10⟩, ⟨2, 2, 80, 0, 10⟩, ⟨3, 3, 70, 0, 10⟩,
   ⟨4, 4, 60, 0, 10⟩, ⟨5, 5, 50, 0, 10⟩]

/-- The customers table of the recency ladder dataset. -/
def recencyLadderCustomers : List CustomerRow :=
  [⟨1, 0, 0⟩, ⟨2, 0, 0⟩, ⟨3, 0, 0⟩, ⟨4, 0, 0⟩, ⟨5, 0, 0⟩]

/-- A one-cohort dataset: customers 1 and 2 sign up in month 0 but only
customer 1 orders in month 0 (one order, so the cohort does have an order in
its origin period). -/
def cohortExCustomers : List CustomerRow := [⟨1, 0, 0⟩, ⟨2, 0, 0⟩]

/-- The single order of the one-cohort dataset (customer 1, month 0). -/
def cohortExOrders : List OrderRow := [⟨1, 1, 5, 0, 10⟩]

/-- The cohort table of the one-cohort dataset. -/
def cohortExTable : List CohortRow :=
  create_signup_cohorts_table cohortExCustomers cohortExOrders

/-- The customers DataFrame before any engine call (no derived columns). -/
def freshCustomersDF : CustomersDF := ⟨cohortExCustomers, false⟩

/-- The orders DataFrame before any engine call (no derived columns). -/
def freshOrdersDF : OrdersDF := ⟨cohortExOrders, false⟩

/-- The predictive CLV rows of the three-customer dataset: every order lies
in the recent 180-day window (max order day 90), the previous window is
empty, so every ordering customer has growth rate 0 and multiplier 1. -/
def exPredRows : List PredRow :=
  predictiveRows exOrders (calculate_historical_clv_table exOrders exCustomers)

/-- A default predictive row (used only as a `getD` fallback). -/
def defaultPredRow : PredRow := ⟨clvZeroRow 0, 0, 1, 0⟩

/-- Three clusters over eight customers as (frequency, monetary, recency)
rows: cluster 0 = three inactive customers, cluster 1 = one extreme customer,
cluster 2 = four good customers. Cluster 2 exceeds the dataset overall means
of frequency (4) and monetary (4) with recency below the dataset mean (50),
but stays below the unweighted cluster-mean baselines (17/3, 17/3). -/
def exClusters : List (List FeatRow) :=
  [[⟨0, 0, 100⟩, ⟨0, 0, 100⟩, ⟨0, 0, 100⟩],
   [⟨12, 12, 100⟩],
   [⟨5, 5, 0⟩, ⟨5, 5, 0⟩, ⟨5, 5, 0⟩, ⟨5, 5, 0⟩]]

/-!  ## Helper lemmas  -/

theorem mem_insertLe {α : Type} (le : α → α → Bool) (x y : α) (l : List α) :
    x ∈ insertLe le y l ↔ x = y ∨ x ∈ l := by
  induction l with
  | nil => simp [insertLe]
  | cons z zs ih =>
    simp only [insertLe]
    split
    · simp [List.mem_cons]
    · simp only [List.mem_cons, ih]
      tauto

theorem mem_sortLe {α : Type} (le : α → α → Bool) (x : α) (l : List α) :
    x ∈ sortLe le l ↔ x ∈ l := by
  induction l with
  | nil => simp [sortLe]
  | cons z zs ih => simp [sortLe, mem_insertLe, ih]

theorem rankFirst_pos {α : Type} [LinearOrder α] [Inhabited α] (asc : Bool)
    (xs : List α) (i : Nat) (v : α) : 1 ≤ rankFirst asc xs i v := by
  unfold rankFirst
  omega

theorem rankFirst_le_length {α : Type} [LinearOrder α] [Inhabited α]
    (asc : Bool) (xs : List α) (i : Nat) (hi : i < xs.length) :
    rankFirst asc xs i (xs.getD i default) ≤ xs.length := by
  unfold rankFirst
  set p : Nat → Bool := fun j =>
    decide ((if asc then xs.getD j default < xs.getD i default
             else xs.getD i default < xs.getD j default) ∨
            (xs.getD j default = xs.getD i default ∧ j < i)) with hp
  have hle : (List.range xs.length).countP p ≤ xs.length := by
    simpa using List.countP_le_length (p := p) (l := List.range xs.length)
  have hne : (List.range xs.length).countP p ≠ xs.length := by
    intro heq
    have hall : ∀ j ∈ List.range xs.length, p j = true := by
      apply List.countP_eq_length.mp
      simpa using heq
    have hi' : p i = true := hall i (List.mem_range.mpr hi)
    rw [hp] at hi'
    simp only [decide_eq_true_eq] at hi'
    rcases hi' with h | h
    · cases asc <;> simp at h
    · exact lt_irrefl _ h.2
  omega

theorem qcutBucket_bounds (n r : Nat) (hn : 2 ≤ n) (hr : r ≤ n) :
    1 ≤ qcutBucket n r ∧ qcutBucket n r ≤ 5 := by
  unfold qcutBucket
  split
  · omega
  · rename_i hr2
    constructor
    · rw [Nat.one_le_div_iff (by omega)]
      omega
    · have hlt : (5 * (r - 1) + (n - 2)) / (n - 1) < 6 := by
        rw [Nat.div_lt_iff_lt_mul (by omega)]
        omega
      omega

theorem scoreLabel_bounds (rev : Bool) (b : Nat) (hb : 1 ≤ b ∧ b ≤ 5) :
    1 ≤ scoreLabel rev b ∧ scoreLabel rev b ≤ 5 := by
  unfold scoreLabel
  cases rev <;> simp <;> omega

theorem scoresOf_mem_bounds {α : Type} [LinearOrder α] [Inhabited α]
    (asc rev : Bool) (xs : List α) (hn : 2 ≤ xs.length) (x : Nat)
    (hx : x ∈ scoresOf asc rev xs) : 1 ≤ x ∧ x ≤ 5 := by
  unfold scoresOf at hx
  obtain ⟨i, hi, rfl⟩ := List.mem_map.mp hx
  have hi' := List.mem_range.mp hi
  apply scoreLabel_bounds
  apply qcutBucket_bounds _ _ hn
  exact rankFirst_le_length asc xs i hi'

theorem getD_bounds_nat (l : List Nat) (d : Nat) (i : Nat)
    (hl : ∀ x ∈ l, 1 ≤ x ∧ x ≤ 5) (hd : 1 ≤ d ∧ d ≤ 5) :
    1 ≤ l.getD i d ∧ l.getD i d ≤ 5 := by
  induction l generalizing i with
  | nil => simpa [List.getD] using hd
  | cons a as ih =>
    cases i with
    | zero => simpa using hl a (List.mem_cons_self a as)
    | succ j => simpa using ih j fun x hx => hl x (List.mem_cons_of_mem a hx)

theorem nunique_pos {l : List Nat} {x : Nat} (hx : x ∈ l) : 0 < nunique l := by
  unfold nunique
  exact List.length_pos.mpr (List.ne_nil_of_mem (List.mem_dedup.mpr hx))

theorem nunique_le_of_subset {l1 l2 : List Nat} (h : l1 ⊆ l2) :
    nunique l1 ≤ nunique l2 := by
  unfold nunique
  rw [← List.card_toFinset, ← List.card_toFinset]
  apply Finset.card_le_card
  intro x hx
  rw [List.mem_toFinset] at hx ⊢
  exact h hx

theorem getD_map_of_lt {α β : Type} (f : α → β) (l : List α) (i : Nat)
    (hi : i < l.length) (d : α) (d' : β) :
    (l.map f).getD i d' = f (l.getD i d) := by
  induction l generalizing i with
  | nil => simp at hi
  | cons a as ih =>
    cases i with
    | zero => simp
    | succ j =>
      simp only [List.map_cons, List.getD_cons_succ]
      exact ih j (by simpa using hi)

/-!  ## Claim theorems: RFM engine  -/

set_option maxHeartbeats 1000000 in
/-- C7: every customer in the table returned by `calculate_rfm_scores`,
whether or not they have orders, has integer R, F and M scores in the closed
interval [1, 5]. -/
theorem rfm_scores_in_unit_range (refDay : Int) (orders : List OrderRow)
    (customers : List CustomerRow) (tbl : List RfmRow)
    (h : calculate_rfm_scores refDay orders customers = some tbl)
    (row : RfmRow) (hrow : row ∈ tbl) :
    (1 ≤ row.R_score ∧ row.R_score ≤ 5) ∧
      (1 ≤ row.F_score ∧ row.F_score ≤ 5) ∧
      (1 ≤ row.M_score ∧ row.M_score ≤ 5) := by
  unfold calculate_rfm_scores at h
  split at h
  · simp at h
  · rename_i hn
    injection h with h'
    subst h'
    obtain ⟨c, hc, rfl⟩ := List.mem_map.mp hrow
    unfold mergedRfmRow
    cases hfind : (scoredAgg refDay orders).find?
        (fun row => row.customer_id == c.customer_id) with
    | none => simp [rfmSentinelRow]
    | some r =>
      simp only []
      have hr : r ∈ scoredAgg refDay orders := List.mem_of_find?_eq_some hfind
      simp only [scoredAgg] at hr
      obtain ⟨⟨a, sr, sf, sm⟩, ht, rfl⟩ := List.mem_map.mp hr
      have hz1 := List.of_mem_zip ht
      have hz2 := List.of_mem_zip hz1.2
      have hz3 := List.of_mem_zip hz2.2
      have hbr : 1 ≤ sr ∧ sr ≤ 5 :=
        scoresOf_mem_bounds false true _
          (by simp only [List.length_map]; omega) sr hz2.1
      have hbf : 1 ≤ sf ∧ sf ≤ 5 :=
        scoresOf_mem_bounds true false _
          (by simp only [List.length_map]; omega) sf hz3.1
      have hbm : 1 ≤ sm ∧ sm ≤ 5 :=
        scoresOf_mem_bounds true false _
          (by simp only [List.length_map]; omega) sm hz3.2
      simpa [rfmScoredRowOf] using ⟨hbr, hbf, hbm⟩

set_option maxHeartbeats 2000000 in
set_option maxRecDepth 4000 in
/-- C7 witness: the three-customer dataset at reference day 100; the
sentinel row of the orderless customer 3 is in the returned table and its
scores are in range. -/
theorem rfm_scores_in_unit_range_witness :
    (1 ≤ (rfmSentinelRow 3).R_score ∧ (rfmSentinelRow 3).R_score ≤ 5) ∧
      (1 ≤ (rfmSentinelRow 3).F_score ∧ (rfmSentinelRow 3).F_score ≤ 5) ∧
      (1 ≤ (rfmSentinelRow 3).M_score ∧ (rfmSentinelRow 3).M_score ≤ 5) :=
  rfm_scores_in_unit_range 100 exOrders exCustomers exRfmTable rfl
    (rfmSentinelRow 3) (by with_unfolding_all decide)

/-- C1 counterexample: the triple (1,1,1) of a zero-order customer is
assigned "Hibernating" by the priority-ordered rule list, not "Lost": the
Hibernating box [1,2]^3 contains (1,1,1) and precedes Lost in
`segment_priority`. -/
theorem lost_rule_shadowed_by_hibernating :
    assign_segment 1 1 1 = "Hibernating" ∧ assign_segment 1 1 1 ≠ "Lost" := by
  decide

/-- C1 (amended): every customer with zero orders receives the sentinel RFM
record (recency 999, frequency 0, monetary 0, scores (1,1,1), RFM_score
"111"), and the segment the priority-ordered rule list assigns to (1,1,1) is
"Hibernating" (the Lost rule is shadowed). -/
theorem rfm_zero_order_customer (refDay : Int) (orders : List OrderRow)
    (customers : List CustomerRow) (tbl : List RfmRow) (c : CustomerRow)
    (h : calculate_rfm_scores refDay orders customers = some tbl)
    (hc : c ∈ customers)
    (hno : c.customer_id ∉ orders.map (fun o => o.customer_id)) :
    ∃ row ∈ tbl, row.customer_id = c.customer_id ∧ row.recency = 999 ∧
      row.frequency = 0 ∧ row.monetary = 0 ∧ row.R_score = 1 ∧
      row.F_score = 1 ∧ row.M_score = 1 ∧ row.RFM_score = "111" ∧
      assign_segment row.R_score row.F_score row.M_score = "Hibernating" := by
  unfold calculate_rfm_scores at h
  split at h
  · simp at h
  · injection h with h'
    subst h'
    refine ⟨mergedRfmRow refDay orders c, List.mem_map_of_mem _ hc, ?_⟩
    have hfind : (scoredAgg refDay orders).find?
        (fun row => row.customer_id == c.customer_id) = none := by
      apply List.find?_eq_none.mpr
      intro row hrow
      simp only [scoredAgg] at hrow
      obtain ⟨⟨a, sr, sf, sm⟩, ht, rfl⟩ := List.mem_map.mp hrow
      have ha := (List.of_mem_zip ht).1
      unfold customer_rfm at ha
      obtain ⟨cid, hcid, rfl⟩ := List.mem_map.mp ha
      have hmem : cid ∈ orders.map (fun o => o.customer_id) :=
        List.mem_dedup.mp ((mem_sortLe _ _ _).mp hcid)
      simp only [rfmScoredRowOf, rfmAggRow, beq_iff_eq]
      intro heq
      rw [heq] at hmem
      exact hno hmem
    have hrow : mergedRfmRow refDay orders c = rfmSentinelRow c.customer_id := by
      unfold mergedRfmRow
      rw [hfind]
    rw [hrow]
    refine ⟨rfl, rfl, rfl, rfl, rfl, rfl, rfl, rfl, ?_⟩
    show assign_segment 1 1 1 = "Hibernating"
    decide

set_option maxHeartbeats 2000000 in
set_option maxRecDepth 4000 in
/-- C1 witness: in the three-customer dataset, customer 3 has no orders and
its returned row is the sentinel record with segment "Hibernating". -/
theorem rfm_zero_order_customer_witness :
    ∃ row ∈ exRfmTable, row.customer_id = 3 ∧ row.recency = 999 ∧
      row.frequency = 0 ∧ row.monetary = 0 ∧ row.R_score = 1 ∧
      row.F_score = 1 ∧ row.M_score = 1 ∧ row.RFM_score = "111" ∧
      assign_segment row.R_score row.F_score row.M_score = "Hibernating" :=
  rfm_zero_order_customer 100 exOrders exCustomers exRfmTable ⟨3, 65, 2⟩ rfl
    (by decide) (by decide)

/-- C5: segment assignment is first-match-wins over the priority order the
spec states (Champions, Loyal Customers, Potential Loyalists, New Customers,
Promising, Cannot Lose Them, At Risk, Need Attention, About to Sleep,
Hibernating, Lost): on every triple in [1,5]^3 the code agrees with the
first-match evaluation of the spec rule list, with "Others" as fallback, and
on the overlapping triple (5,5,5) the earlier-priority Champions wins over
Loyal Customers. -/
theorem assign_segment_priority_order :
    (∀ r ∈ Finset.Icc 1 5, ∀ f ∈ Finset.Icc 1 5, ∀ m ∈ Finset.Icc 1 5,
      assign_segment r f m = specFirstMatch r f m spec_segment_list) ∧
    assign_segment 5 5 5 = "Champions" ∧
    inBox ⟨3, 5, 3, 5, 3, 5⟩ 5 5 5 = true := by
  refine ⟨by decide, by decide, by decide⟩

/-- C5 witness: the agreement instantiated at the overlapping triple
(5,5,5). -/
theorem assign_segment_priority_order_witness :
    assign_segment 5 5 5 = specFirstMatch 5 5 5 spec_segment_list :=
  assign_segment_priority_order.1 5 (by decide) 5 (by decide) 5 (by decide)

set_option maxHeartbeats 4000000 in
set_option maxRecDepth 8000 in
/-- C8 (code bug evaluation): on five customers with recencies
10 < 20 < 30 < 40 < 50 days, `calculate_rfm_scores` assigns R scores
1, 2, 3, 4, 5 respectively — the most recent customer receives the lowest
R score, contradicting the claimed monotonicity (recency a < recency b
implies R a ≥ R b, most recent scores 5) and the comment of the source that
5 is the best score. -/
theorem rfm_recency_direction_inverted :
    ((calculate_rfm_scores 100 recencyLadderOrders recencyLadderCustomers).getD
        []).map (fun row => (row.recency, row.R_score)) =
      [(10, 1), (20, 2), (30, 3), (40, 4), (50, 5)] := by
  with_unfolding_all decide

/-!  ## Claim theorems: cohort engine  -/

theorem activeIn_pos (customers : List CustomerRow) (orders : List OrderRow)
    (t : Nat × Int × Int) (ht : t ∈ cohortJoined customers orders) :
    0 < activeIn customers orders t.2.1 t.2.2 := by
  apply nunique_pos (x := t.1)
  apply List.mem_filterMap.mpr
  exact ⟨t, ht, by rw [if_pos ⟨rfl, rfl⟩]⟩

theorem activeIn_le_cohortSize (customers : List CustomerRow)
    (orders : List OrderRow) (g p : Int) :
    activeIn customers orders g p ≤ cohortSize customers g := by
  apply nunique_le_of_subset
  intro y hy
  obtain ⟨u, hu, hval⟩ := List.mem_filterMap.mp hy
  by_cases hcond : u.2.1 = g ∧ u.2.2 = p
  · rw [if_pos hcond] at hval
    injection hval with hval
    unfold cohortJoined at hu
    obtain ⟨o, ho, hmapo⟩ := List.mem_filterMap.mp hu
    obtain ⟨g0, hg0, hu'⟩ := Option.map_eq_some'.mp hmapo
    unfold cohortGroupOf at hg0
    obtain ⟨crow, hcrow, hg0'⟩ := Option.map_eq_some'.mp hg0
    have hcrow_mem : crow ∈ customers := List.mem_of_find?_eq_some hcrow
    have hcrow_id : crow.customer_id = o.customer_id := by
      have := List.find?_some hcrow
      rwa [beq_iff_eq] at this
    have h1 : u.2.1 = g0 := by rw [← hu']
    have h2 : u.1 = o.customer_id := by rw [← hu']
    have hg : g0 = g := by
      rw [← h1]
      exact hcond.1
    apply List.mem_filterMap.mpr
    refine ⟨crow, hcrow_mem, ?_⟩
    rw [if_pos (by rw [hg0', hg])]
    rw [hcrow_id, ← h2, hval]
  · rw [if_neg hcond] at hval
    exact absurd hval (by simp)

/-- C2 counterexample: customers 1 and 2 both sign up in month 0 and only
customer 1 orders in month 0, so the cohort has an order in its origin period
but the period-0 retention rate is 1/2, not 1.0. -/
theorem cohort_period0_retention_not_one :
    create_signup_cohorts_table cohortExCustomers cohortExOrders =
      [⟨0, 0, 1, 2, 1/2⟩] ∧
    ((1 : Rat)/2) ≠ 1 ∧
    (1, (0 : Int), (0 : Int)) ∈ cohortJoined cohortExCustomers cohortExOrders := by
  refine ⟨by with_unfolding_all decide, by with_unfolding_all decide, by decide⟩

/-- C2 (amended): for every cohort with at least one order in its origin
period, the period-0 row exists and its retention rate is exactly
active_customers / total_customers, where active_customers counts the
distinct cohort members ordering in the origin period; the rate is positive
and at most 1.0, but equals 1.0 only when every cohort member ordered in the
origin period. -/
theorem cohort_period0_retention_ratio (customers : List CustomerRow)
    (orders : List OrderRow) (t : Nat × Int × Int)
    (ht : t ∈ cohortJoined customers orders) (h0 : t.2.2 = 0) :
    ∃ row ∈ create_signup_cohorts_table customers orders,
      row.cohort_group = t.2.1 ∧ row.period_number = 0 ∧
      0 < row.active_customers ∧
      row.active_customers ≤ row.total_customers ∧
      row.retention_rate =
        (row.active_customers : Rat) / (row.total_customers : Rat) ∧
      0 < row.retention_rate ∧ row.retention_rate ≤ 1 := by
  have hkey : (t.2.1, (0 : Int)) ∈ cohortKeys customers orders := by
    unfold cohortKeys
    rw [mem_sortLe, List.mem_dedup]
    have h2 : (t.2.1, (0 : Int)) = t.2 := by rw [← h0]
    rw [h2]
    exact List.mem_map_of_mem _ ht
  have hA : 0 < activeIn customers orders t.2.1 0 := by
    have := activeIn_pos customers orders t ht
    rwa [h0] at this
  have hAT : activeIn customers orders t.2.1 0 ≤ cohortSize customers t.2.1 :=
    activeIn_le_cohortSize customers orders t.2.1 0
  have hT : 0 < cohortSize customers t.2.1 := lt_of_lt_of_le hA hAT
  have hTQ : (0 : Rat) < (cohortSize customers t.2.1 : Rat) := by
    exact_mod_cast hT
  refine ⟨cohortRowOf customers orders t.2.1 0, ?_, rfl, rfl, hA, hAT, rfl,
    ?_, ?_⟩
  · unfold create_signup_cohorts_table
    exact List.mem_map_of_mem _ hkey
  · show (0 : Rat) < (activeIn customers orders t.2.1 0 : Rat) /
      (cohortSize customers t.2.1 : Rat)
    apply div_pos _ hTQ
    exact_mod_cast hA
  · show (activeIn customers orders t.2.1 0 : Rat) /
      (cohortSize customers t.2.1 : Rat) ≤ 1
    rw [div_le_one hTQ]
    exact_mod_cast hAT

/-- C2 witness: in the one-cohort dataset, customer 1 orders in the origin
month; the period-0 row has retention active/total = 1/2 ∈ (0, 1]. -/
theorem cohort_period0_retention_ratio_witness :
    ∃ row ∈ create_signup_cohorts_table cohortExCustomers cohortExOrders,
      row.cohort_group = 0 ∧ row.period_number = 0 ∧
      0 < row.active_customers ∧
      row.active_customers ≤ row.total_customers ∧
      row.retention_rate =
        (row.active_customers : Rat) / (row.total_customers : Rat) ∧
      0 < row.retention_rate ∧ row.retention_rate ≤ 1 :=
  cohort_period0_retention_ratio cohortExCustomers cohortExOrders
    (1, 0, 0) (by decide) rfl

/-- C10: `get_cohort_insights` returns normally only when the stored
retention table has at least two period columns; when the pivot built by
`create_retention_table` has exactly the single period column 0, the call
fails with the unhandled UnboundLocalError on `month_1_retention` (skipped
assignment, unconditional read), not with the documented precondition
ValueError. -/
theorem cohort_insights_period_columns (ct : List CohortRow) :
    (∀ rt res, get_cohort_insights rt = Except.ok res →
      ∃ t, rt = some t ∧ 2 ≤ t.periods.length) ∧
    ((create_retention_table ct).periods = [0] →
      get_cohort_insights (some (create_retention_table ct)) =
        Except.error PyErr.unboundLocalError) := by
  constructor
  · intro rt res h
    cases rt with
    | none => simp [get_cohort_insights] at h
    | some t =>
      refine ⟨t, rfl, ?_⟩
      by_contra hlen
      simp only [get_cohort_insights] at h
      rw [if_neg (by omega)] at h
      simp at h
  · intro hp
    simp only [get_cohort_insights]
    rw [if_neg (by rw [hp]; decide)]

/-- C10 witness: the one-cohort dataset has orders only in its origin month,
its retention pivot has the single period column 0, and the insights call
fails with UnboundLocalError. -/
theorem cohort_insights_period_columns_witness :
    get_cohort_insights (some (create_retention_table cohortExTable)) =
      Except.error PyErr.unboundLocalError :=
  (cohort_insights_period_columns cohortExTable).2 (by with_unfolding_all decide)

/-!  ## Claim theorems: purity (frame effects)  -/

/-- C3 counterexample: `create_signup_cohorts` does not leave its input
tables unchanged — the caller customers table gains the `cohort_group`
column and the caller orders table gains the `order_period` column. -/
theorem create_signup_cohorts_mutates_inputs :
    (create_signup_cohorts freshCustomersDF freshOrdersDF).2.1 ≠
      freshCustomersDF ∧
    (create_signup_cohorts freshCustomersDF freshOrdersDF).2.2 ≠
      freshOrdersDF := by
  refine ⟨by with_unfolding_all decide, by with_unfolding_all decide⟩

/-- C3 (amended): every engine operation preserves the rows of its input
tables (no row or value changes), and the RFM and CLV steps leave the caller
tables unchanged up to the in-place datetime coercion of the date columns
(the identity on parsed dates), but the two cohort operations additionally
add the derived `cohort_group` and `order_period` columns to the caller
tables in place, so they are not pure transformations. -/
theorem engine_table_effects (customers : CustomersDF) (orders : OrdersDF)
    (refDay : Int) (st : Option ClvData) :
    ((create_signup_cohorts customers orders).2.1.rows = customers.rows ∧
     (create_signup_cohorts customers orders).2.2.rows = orders.rows ∧
     (create_signup_cohorts customers orders).2.1.has_cohort_group = true ∧
     (create_signup_cohorts customers orders).2.2.has_order_period = true ∧
     (customers.has_cohort_group = false →
       (create_signup_cohorts customers orders).2.1 ≠ customers)) ∧
    ((analyze_revenue_cohorts customers orders).2.1.rows = customers.rows ∧
     (analyze_revenue_cohorts customers orders).2.2.rows = orders.rows) ∧
    (calculate_rfm_scores_df refDay orders customers).2 = (orders, customers) ∧
    (calculate_historical_clv_df orders customers).2 = (orders, customers) ∧
    (calculate_predictive_clv_df st orders).2 = orders := by
  refine ⟨⟨rfl, rfl, rfl, rfl, ?_⟩, ⟨rfl, rfl⟩, rfl, rfl, rfl⟩
  intro hf heq
  have hproj := congrArg CustomersDF.has_cohort_group heq
  simp only at hproj
  rw [hf] at hproj
  exact Bool.noConfusion hproj

/-- C3 witness: on a fresh customers table the cohort step keeps the rows
but returns a customers table that differs from the input (added column). -/
theorem engine_table_effects_witness :
    (create_signup_cohorts freshCustomersDF freshOrdersDF).2.1.rows =
      freshCustomersDF.rows ∧
    (create_signup_cohorts freshCustomersDF freshOrdersDF).2.1 ≠
      freshCustomersDF :=
  ⟨(engine_table_effects freshCustomersDF freshOrdersDF 0 none).1.1,
   (engine_table_effects freshCustomersDF freshOrdersDF 0 none).1.2.2.2.2 rfl⟩

/-!  ## Claim theorems: CLV engine  -/

/-- C4 counterexample: calling `segment_customers_by_clv` after only
`calculate_historical_clv` does not fail with the precondition ValueError —
the guard only checks that clv_data exists, so the call reaches the read of
the missing `predictive_clv` column and fails with KeyError. -/
theorem clv_segment_after_historical_not_value_error :
    segment_customers_by_clv
        (some (calculate_historical_clv exOrders exCustomers)) =
      Except.error PyErr.keyError ∧
    PyErr.keyError ≠ PyErr.valueError :=
  ⟨rfl, by decide⟩

/-- C4 (amended): `calculate_predictive_clv` raises the usage ValueError
exactly when historical CLV has not run (for existing state it never raises
it), and `segment_customers_by_clv` raises the usage ValueError only when no
CLV data exists at all; called after only `calculate_historical_clv` it
passes the guard and fails with KeyError on the missing `predictive_clv`
column. -/
theorem clv_stage_guards (orders : List OrderRow)
    (customers : List CustomerRow) (rows : List ClvRow) :
    calculate_predictive_clv none orders = Except.error PyErr.valueError ∧
    segment_customers_by_clv none = Except.error PyErr.valueError ∧
    segment_customers_by_clv (some (ClvData.historicalOnly rows)) =
      Except.error PyErr.keyError ∧
    segment_customers_by_clv
        (some (calculate_historical_clv orders customers)) =
      Except.error PyErr.keyError ∧
    (∀ d : ClvData, calculate_predictive_clv (some d) orders ≠
      Except.error PyErr.valueError) := by
  refine ⟨rfl, rfl, rfl, rfl, ?_⟩
  intro d h
  simp [calculate_predictive_clv] at h

theorem trendMultiplier_one (orders : List OrderRow) (c : Nat)
    (h : spendingGrowthRate orders c = 0) : trendMultiplier orders c = 1 := by
  unfold trendMultiplier
  rw [h]
  norm_num [ratClamp, max_def, min_def]

/-- C9: for every customer whose spending_growth_rate is exactly 0 the
trend multiplier is the identity 1 and predictive_clv equals historical_clv;
in particular every customer absent from the recent 180-day window gets
growth 0, multiplier 1 and predictive_clv = historical_clv. -/
theorem predictive_clv_identity_when_growth_zero (st : Option ClvData)
    (orders : List OrderRow) (rows : List PredRow)
    (h : calculate_predictive_clv st orders =
      Except.ok (ClvData.withPredictive rows))
    (pr : PredRow) (hpr : pr ∈ rows) :
    (pr.spending_growth_rate = 0 → pr.trend_multiplier = 1 ∧
      pr.predictive_clv = pr.base.historical_clv) ∧
    (pr.base.customer_id ∉ recentWindowIds orders →
      pr.spending_growth_rate = 0 ∧ pr.trend_multiplier = 1 ∧
      pr.predictive_clv = pr.base.historical_clv) := by
  cases st with
  | none => simp [calculate_predictive_clv] at h
  | some d =>
    simp only [calculate_predictive_clv] at h
    injection h with h'
    injection h' with h''
    subst h''
    unfold predictiveRows at hpr
    obtain ⟨r, hr, rfl⟩ := List.mem_map.mp hpr
    unfold predRowOf
    by_cases hc : (recentWindowIds orders).contains r.customer_id = true
    · rw [if_pos hc]
      constructor
      · intro hg
        have hg' : spendingGrowthRate orders r.customer_id = 0 := hg
        refine ⟨trendMultiplier_one orders r.customer_id hg', ?_⟩
        show r.historical_clv * trendMultiplier orders r.customer_id =
          r.historical_clv
        rw [trendMultiplier_one orders r.customer_id hg', mul_one]
      · intro habs
        exact absurd (List.elem_iff.mp hc) habs
    · rw [if_neg hc]
      refine ⟨fun _ => ⟨rfl, mul_one _⟩, fun _ => ⟨rfl, rfl, mul_one _⟩⟩

set_option maxHeartbeats 2000000 in
set_option maxRecDepth 8000 in
/-- C9 witness: in the three-customer dataset the previous 180-day window is
empty, so the first predictive row has growth rate 0 and its predictive CLV
equals its historical CLV. -/
theorem predictive_clv_identity_witness :
    (exPredRows.getD 0 defaultPredRow).trend_multiplier = 1 ∧
      (exPredRows.getD 0 defaultPredRow).predictive_clv =
        (exPredRows.getD 0 defaultPredRow).base.historical_clv :=
  (predictive_clv_identity_when_growth_zero
    (some (ClvData.historicalOnly
      (calculate_historical_clv_table exOrders exCustomers)))
    exOrders exPredRows rfl (exPredRows.getD 0 defaultPredRow)
    (by with_unfolding_all decide)).1 (by with_unfolding_all decide)

/-!  ## Claim theorems: behavioral segment naming  -/

set_option maxHeartbeats 2000000 in
set_option maxRecDepth 4000 in
/-- C6 counterexample: cluster 2 of the eight-customer dataset exceeds the
dataset overall means of frequency and monetary with below-average recency,
so the claimed decision table names it VIP; the code compares against the
unweighted mean of the per-cluster means instead and names it
new/general. -/
theorem behavioral_overall_means_counterexample :
    (datasetOverall exClusters).freq_mean <
        (profileOf (exClusters.getD 2 [])).freq_mean ∧
    (datasetOverall exClusters).monetary_mean <
        (profileOf (exClusters.getD 2 [])).monetary_mean ∧
    (profileOf (exClusters.getD 2 [])).recency_mean <
        (datasetOverall exClusters).recency_mean ∧
    (spec_behavioral_segment_names exClusters).getD 2
        BehavioralName.newGeneral = BehavioralName.vip ∧
    (assign_behavioral_segment_names (profilesOf exClusters)).getD 2
        BehavioralName.vip = BehavioralName.newGeneral ∧
    BehavioralName.newGeneral ≠ BehavioralName.vip := by
  refine ⟨by with_unfolding_all decide, by with_unfolding_all decide,
    by with_unfolding_all decide, by with_unfolding_all decide,
    by with_unfolding_all decide, by decide⟩

/-- C6 (amended): cluster naming follows the decision table, but against the
unweighted mean of the per-cluster means (`profiles[(feature, mean)].mean()`)
rather than the overall means of the input dataset: every cluster label is
the decision tree applied to its profile and that baseline, and the tree
sends above-baseline frequency and monetary to VIP/past-VIP (VIP exactly
when recency is below baseline), above-baseline frequency only to
loyal/at-risk, above-baseline monetary only to high-spend/dormant
high-spend, and neither to new-general/low-engagement. -/
theorem behavioral_decision_table (profiles : List ClusterProfile) (i : Nat)
    (hi : i < profiles.length) :
    ((assign_behavioral_segment_names profiles).getD i BehavioralName.vip =
      behavioralDecision (overallOfProfiles profiles)
        (profiles.getD i ⟨0, 0, 0⟩)) ∧
    ∀ ov p : ClusterProfile,
      ((ov.freq_mean < p.freq_mean ∧ ov.monetary_mean < p.monetary_mean) →
        behavioralDecision ov p =
          if p.recency_mean < ov.recency_mean then BehavioralName.vip
          else BehavioralName.pastVip) ∧
      ((ov.freq_mean < p.freq_mean ∧ ¬ ov.monetary_mean < p.monetary_mean) →
        behavioralDecision ov p =
          if p.recency_mean < ov.recency_mean then BehavioralName.loyal
          else BehavioralName.atRisk) ∧
      ((¬ ov.freq_mean < p.freq_mean ∧ ov.monetary_mean < p.monetary_mean) →
        behavioralDecision ov p =
          if p.recency_mean < ov.recency_mean then BehavioralName.highSpend
          else BehavioralName.dormantHighSpend) ∧
      ((¬ ov.freq_mean < p.freq_mean ∧ ¬ ov.monetary_mean < p.monetary_mean) →
        behavioralDecision ov p =
          if p.recency_mean < ov.recency_mean then BehavioralName.newGeneral
          else BehavioralName.lowEngagement) := by
  constructor
  · unfold assign_behavioral_segment_names
    exact getD_map_of_lt _ profiles i hi _ _
  · intro ov p
    refine ⟨?_, ?_, ?_, ?_⟩ <;> intro h <;> unfold behavioralDecision
    · rw [if_pos h]
    · rw [if_neg (fun hc => h.2 hc.2), if_pos h.1]
    · rw [if_neg (fun hc => h.1 hc.1), if_neg h.1, if_pos h.2]
    · rw [if_neg (fun hc => h.1 hc.1), if_neg h.1, if_neg h.2]

/-- C6 witness: the cluster-2 label of the eight-customer dataset equals the
decision tree applied against the cluster-mean baseline. -/
theorem behavioral_decision_table_witness :
    (assign_behavioral_segment_names (profilesOf exClusters)).getD 2
        BehavioralName.vip =
      behavioralDecision (overallOfProfiles (profilesOf exClusters))
        ((profilesOf exClusters).getD 2 ⟨0, 0, 0⟩) :=
  (behavioral_decision_table (profilesOf exClusters) 2 (by decide)).1
